import Mathlib

/-!
Verification development for `utils/scoring.py`: a points-evaluation engine
for professional-certification renewal, plus its Minguo-calendar helpers.

The Python module is shallowly embedded:
  * `datetime(y, m, d)` construction becomes the validity predicate
    `is_valid_datetime` over a plain `Date` triple (Python restricts years
    to 1..9999 and validates the calendar);
  * Python dictionaries whose keys may be absent become structures of
    `Option` fields; a raw `d['k']` access on a missing key — which raises
    `KeyError` in Python — becomes the `.error` branch of `Except`;
  * `record.get(k, default)` becomes `Option.getD`;
  * uncaught Python exceptions are the `Except.error` results, while the
    deliberate `return None` of the date parser is `Option.none`.
Numbers are modelled as `Int` (the record carries plain numeric points).
-/

instance {ε α : Type} [DecidableEq ε] [DecidableEq α] : DecidableEq (Except ε α) := fun a b =>
  match a, b with
  | .error e, .error f => if h : e = f then .isTrue (by simp [h]) else .isFalse (by simp [h])
  | .error _, .ok _ => .isFalse (by simp)
  | .ok _, .error _ => .isFalse (by simp)
  | .ok x, .ok y => if h : x = y then .isTrue (by simp [h]) else .isFalse (by simp [h])

/-- A Gregorian calendar date, as carried by Python's `datetime` (only the
year/month/day fields are ever used by the module). -/
structure Date where
  year : Int
  month : Int
  day : Int
deriving DecidableEq

/-- Gregorian leap-year test, as performed by Python's `datetime`. -/
def is_leap (y : Int) : Bool :=
  decide (y % 4 = 0) && (decide (y % 100 ≠ 0) || decide (y % 400 = 0))

/-- Number of days in a month, as validated by Python's `datetime`. -/
def days_in_month (y m : Int) : Int :=
  if m = 2 then (if is_leap y then 29 else 28)
  else if m = 4 ∨ m = 6 ∨ m = 9 ∨ m = 11 then 30
  else 31

/-- Whether `datetime(y, m, d)` succeeds in Python: year in 1..9999
(MINYEAR/MAXYEAR), month in 1..12, day within the month. -/
def is_valid_datetime (y m d : Int) : Bool :=
  decide (1 ≤ y) && decide (y ≤ 9999) && decide (1 ≤ m) && decide (m ≤ 12) &&
  decide (1 ≤ d) && decide (d ≤ days_in_month y m)

/-- Python's `datetime.__le__`: lexicographic on (year, month, day). -/
def date_le (a b : Date) : Bool :=
  decide (a.year < b.year ∨
    (a.year = b.year ∧ (a.month < b.month ∨
      (a.month = b.month ∧ a.day ≤ b.day))))

/-- Strip leading and trailing whitespace, as `int()` does to its argument. -/
def trim_chars (l : List Char) : List Char :=
  ((l.dropWhile Char.isWhitespace).reverse.dropWhile Char.isWhitespace).reverse

/-- Accumulate decimal digits; any non-digit character fails the parse. -/
def digits_aux : List Char → Nat → Option Nat
  | [], acc => some acc
  | c :: rest, acc =>
      if c.isDigit then digits_aux rest (acc * 10 + (c.toNat - 48)) else none

/-- Python's `int(str)` on the character list of the string: optional sign,
then decimal digits; empty or malformed input raises `ValueError`, modelled
as `none`. (Unicode digits and underscore separators are not modelled; no
input in this development uses them.) -/
def py_int_chars (l0 : List Char) : Option Int :=
  match trim_chars l0 with
  | [] => none
  | '+' :: rest => if rest.isEmpty then none else (digits_aux rest 0).map Int.ofNat
  | '-' :: rest =>
      if rest.isEmpty then none else (digits_aux rest 0).map (fun n => -(n : Int))
  | l => (digits_aux l 0).map Int.ofNat

/-- Split a character list at every `'-'`, like Python's `str.split('-')`. -/
def split_dash : List Char → List (List Char)
  | [] => [[]]
  | c :: rest =>
      match split_dash rest with
      | [] => [[]]
      | g :: gs => if c = '-' then [] :: g :: gs else (c :: g) :: gs

/-- `minguo_to_gregorian`: parses a `YYY-MM-DD` Minguo string; the year is
the offset plus 1911. Returns `none` (Python: logs and returns `None`) when
the string is empty, does not have exactly three dash-separated fields, a
field fails `int()`, month/day fall outside the basic 1..12 / 1..31 ranges,
or `datetime` construction rejects the triple. -/
def minguo_to_gregorian (s : String) : Option Date :=
  if s.data = [] then none
  else
    match split_dash s.data with
    | [p0, p1, p2] =>
        match py_int_chars p0, py_int_chars p1, py_int_chars p2 with
        | some y0, some m, some d =>
            let y := y0 + 1911
            if m < 1 ∨ m > 12 ∨ d < 1 ∨ d > 31 then none
            else if is_valid_datetime y m d then some ⟨y, m, d⟩ else none
        | _, _, _ => none
    | _ => none

/-- `add_years`: `date.replace(year=year+years)`, and on `ValueError`
(Feb 29 landing in a non-leap year) the fallback
`date.replace(year=year+years, day=day-1)`; if the fallback also fails
(year out of 1..9999) the exception escapes, modelled as `.error`. -/
def add_years (date : Date) (years : Int) : Except String Date :=
  if is_valid_datetime (date.year + years) date.month date.day then
    .ok ⟨date.year + years, date.month, date.day⟩
  else if is_valid_datetime (date.year + years) date.month (date.day - 1) then
    .ok ⟨date.year + years, date.month, date.day - 1⟩
  else .error "ValueError"

/-- Days since 1970-01-01 of a civil date (Hinnant's days-from-civil,
with floor division). -/
def days_from_civil (y m d : Int) : Int :=
  let y2 := if m ≤ 2 then y - 1 else y
  let era := Int.fdiv y2 400
  let yoe := y2 - era * 400
  let mm := if m > 2 then m - 3 else m + 9
  let doy := Int.fdiv (153 * mm + 2) 5 + d - 1
  let doe := yoe * 365 + Int.fdiv yoe 4 - Int.fdiv yoe 100 + doy
  era * 146097 + doe - 719468

/-- Civil date from days since 1970-01-01 (Hinnant's civil-from-days). -/
def civil_from_days (z0 : Int) : Date :=
  let z := z0 + 719468
  let era := Int.fdiv z 146097
  let doe := z - era * 146097
  let yoe := Int.fdiv (doe - Int.fdiv doe 1460 + Int.fdiv doe 36524 - Int.fdiv doe 146096) 365
  let y := yoe + era * 400
  let doy := doe - (365 * yoe + Int.fdiv yoe 4 - Int.fdiv yoe 100)
  let mp := Int.fdiv (5 * doy + 2) 153
  let d := doy - Int.fdiv (153 * mp + 2) 5 + 1
  let m := mp + (if mp < 10 then 3 else -9)
  ⟨(if m ≤ 2 then y + 1 else y), m, d⟩

/-- `subtract_days`: `date - timedelta(days=days)`. Python raises
`OverflowError` when the result leaves the `datetime` year range, modelled
as `.error`. -/
def subtract_days (date : Date) (days : Int) : Except String Date :=
  let c := civil_from_days (days_from_civil date.year date.month date.day - days)
  if is_valid_datetime c.year c.month c.day then .ok c else .error "OverflowError"

/-- One decimal digit as a character. -/
def digit_char (n : Nat) : Char := Char.ofNat (48 + n)

/-- Decimal digits of `n` (most significant first); `fuel` bounds recursion. -/
def nat_to_chars : Nat → Nat → List Char
  | 0, _ => []
  | fuel + 1, n =>
      if n < 10 then [digit_char n]
      else nat_to_chars fuel (n / 10) ++ [digit_char (n % 10)]

/-- Left-pad with zeros to width `w`. -/
def pad_to (w : Nat) (l : List Char) : List Char :=
  List.replicate (w - l.length) '0' ++ l

/-- Python's `strftime('%Y-%m-%d')`: zero-padded 4-digit year and 2-digit
month and day. -/
def strftime_ymd (dt : Date) : String :=
  String.mk (pad_to 4 (nat_to_chars 8 dt.year.toNat) ++
    '-' :: pad_to 2 (nat_to_chars 8 dt.month.toNat) ++
    '-' :: pad_to 2 (nat_to_chars 8 dt.day.toNat))

example : minguo_to_gregorian "113-06-15" = some ⟨2024, 6, 15⟩ := by decide
example : minguo_to_gregorian "112-06-02" = some ⟨2023, 6, 2⟩ := by decide
example : minguo_to_gregorian "" = none := by decide
example : minguo_to_gregorian "113-02-30" = none := by decide
example : add_years ⟨2024, 2, 29⟩ 1 = .ok ⟨2025, 2, 28⟩ := by decide
example : subtract_days ⟨2030, 6, 15⟩ 180 = .ok ⟨2029, 12, 17⟩ := by decide
example : strftime_ymd ⟨2024, 6, 15⟩ = "2024-06-15" := by decide

/-! ## The rule configuration and the input record

`scoring_rules.json` is loaded into the global `RULES` dictionary. Each
dictionary level is a structure of `Option` fields: `none` models an absent
key, so a raw `['k']` access on `none` is a `KeyError` (`Except.error`). -/

/-- The `totals` sub-dictionary of the rule configuration. -/
structure Totals where
  min_professional_course : Option Int
  max_quality_ethics_regulation_counted : Option Int
  min_quality_ethics_regulation : Option Int
  min_total_points : Option Int
  max_online_points : Option Int
deriving DecidableEq

/-- The `before` sub-rule of `indigenous_and_multicultural`. -/
structure BeforeRule where
  max_counted : Option Int
  min_required : Option Int
deriving DecidableEq

/-- The `indigenous_and_multicultural` sub-dictionary. The source reads
`im_rules['after']` but never uses its contents (the 1-point sub-minimums
are hard-coded), so the model records only whether the key is present. -/
structure IMRules where
  rule_change_date_minguo : Option String
  before : Option BeforeRule
  after_present : Bool
deriving DecidableEq

/-- The rule configuration (`RULES`). `mandatory_categories` is an ordered
association list (Python dicts preserve insertion order); each entry's
value is its optional `min` field. -/
structure Rules where
  validity_years : Option Int
  renewal_notice_months : Option Int
  totals : Option Totals
  mandatory_categories : Option (List (String × Option Int))
  indigenous_and_multicultural : Option IMRules
deriving DecidableEq

/-- One entry of the record's `yearly_cultural_points` list (the `year`
field is never read by the evaluator). -/
structure YearData where
  indigenous : Option Int
  multicultural : Option Int
deriving DecidableEq

/-- The input point record; every field is read with `record.get(k, default)`,
so absent fields (`none`) default to zero or the empty list. -/
structure PointRecord where
  professional_course : Option Int
  quality_ethics_regulation : Option Int
  quality_points_raw : Option Int
  ethics_points_raw : Option Int
  regulation_points_raw : Option Int
  mandatory : Option (List (String × Int))
  pre_change_cultural_points : Option Int
  yearly_cultural_points : Option (List YearData)
  renewal_date : Option String
  online_points : Option Int
deriving DecidableEq

/-- The record with no fields set. -/
def empty_record : PointRecord :=
  ⟨none, none, none, none, none, none, none, none, none, none⟩

/-! ## Output structures -/

/-- One entry of `mandatory_results`: `{'value': .., 'passes': .., 'min_required': ..}`. -/
structure MandResult where
  value : Int
  passes : Bool
  min_required : Int
deriving DecidableEq

/-- The `indigenous_multicultural` part of the breakdown. -/
structure IMBreakdown where
  pre_change_raw : Int
  pre_change_counted : Int
  yearly_total_raw : Int
  counted : Int
deriving DecidableEq

/-- The `breakdown` part of the result. -/
structure Breakdown where
  professional_course_raw : Int
  qer_raw : Int
  qer_counted : Int
  quality_raw : Int
  ethics_raw : Int
  regulation_raw : Int
  mandatory : List (String × MandResult)
  mandatory_total_raw : Int
  indigenous_multicultural : IMBreakdown
  online_points_raw : Int
  online_points_capped : Int
  physical_points_derived : Int
deriving DecidableEq

/-- The `passes` map of named boolean flags. -/
structure Passes where
  total : Bool
  professional_min : Bool
  qer_min : Bool
  qer_each_non_zero : Bool
  mandatory_fire : Bool
  mandatory_er : Bool
  mandatory_inf : Bool
  mandatory_gen : Bool
  mandatory_total : Bool
  mandatory_each_min : Bool
  indigenous_multicultural : Bool
  online_max : Bool
  physical_min : Bool
deriving DecidableEq

/-- The full evaluation result `res`. -/
structure EvalResult where
  breakdown : Breakdown
  total_counted : Int
  passes : Passes
  notes : String
deriving DecidableEq

/-- Output of `compute_expiry_and_notice`, three `YYYY-MM-DD` strings. -/
structure ExpiryResult where
  start : String
  expiry : String
  notice_date : String
deriving DecidableEq

/-! ## The two main calculation functions -/

/-- `compute_expiry_and_notice(start_minguo)`: parses the Minguo start
date (returning `None` — here `.ok none` — when it fails to parse), adds
`RULES['validity_years']` calendar years leap-safely, subtracts
`RULES['renewal_notice_months'] * 30` days for the notice date, and formats
all three as `YYYY-MM-DD`. Missing configuration keys raise `KeyError`. -/
def compute_expiry_and_notice (rules : Rules) (start_minguo : String) :
    Except String (Option ExpiryResult) :=
  match minguo_to_gregorian start_minguo with
  | none => .ok none
  | some start =>
      match rules.validity_years with
      | none => .error "KeyError"
      | some vy =>
          match add_years start vy with
          | .error e => .error e
          | .ok expiry =>
              match rules.renewal_notice_months with
              | none => .error "KeyError"
              | some nm =>
                  match subtract_days expiry (nm * 30) with
                  | .error e => .error e
                  | .ok notice =>
                      .ok (some ⟨strftime_ymd start, strftime_ymd expiry,
                        strftime_ymd notice⟩)

/-- The mandatory-categories loop: for each configured category (in order)
read its `min` (a `KeyError` if absent), look up the record's raw value
(default 0), record `{value, passes, min_required}`, fold the conjunction
of the per-category passes, and sum the raw values. -/
def eval_mandatory : List (String × Option Int) → List (String × Int) →
    Except String (List (String × MandResult) × Bool × Int)
  | [], _ => .ok ([], true, 0)
  | (key, minOpt) :: rest, inputs =>
      match minOpt with
      | none => .error "KeyError"
      | some mn =>
          match eval_mandatory rest inputs with
          | .error e => .error e
          | .ok (tailRes, tailEach, tailTotal) =>
              let raw := (List.lookup key inputs).getD 0
              let passes := decide (raw ≥ mn)
              .ok ((key, ⟨raw, passes, mn⟩) :: tailRes,
                passes && tailEach, raw + tailTotal)

/-- The cultural pass/fail branch of `evaluate_points`: resolve the renewal
date; under the old rule compare the pre-change raw against
`before['min_required']`; under the new rule require every yearly entry to
have at least 1 indigenous and 1 multicultural point; with no resolvable
renewal date, fail with the fixed note. Comparing a resolved renewal date
against an unresolved cutover (`None`) is a Python `TypeError`; reading a
missing `min_required` or `after` key is a `KeyError`. -/
def cultural_verdict (before : BeforeRule) (after_present : Bool)
    (rcd_str : String) (rule_change_date : Option Date)
    (renewal_str : Option String) (pre_change_raw : Int)
    (yearly : List YearData) : Except String (Bool × String) :=
  match renewal_str.bind minguo_to_gregorian with
  | some renewal_dt =>
      match rule_change_date with
      | none => .error "TypeError"
      | some rcd =>
          if date_le renewal_dt rcd then
            match before.min_required with
            | none => .error "KeyError"
            | some mn =>
                .ok (decide (pre_change_raw ≥ mn),
                  "認證更新日 " ++ renewal_str.getD "" ++ ": 適用舊制 (<= " ++
                    rcd_str ++ ")。")
          else
            if after_present then
              .ok (yearly.all (fun yd =>
                  !(decide (yd.indigenous.getD 0 < 1) ||
                    decide (yd.multicultural.getD 0 < 1))),
                "認證更新日 " ++ renewal_str.getD "" ++ ": 適用新制 (> " ++
                  rcd_str ++ ")。需每年各 1 分。")
            else .error "KeyError"
  | none =>
      .ok (false, "未提供有效認證更新日，無法判斷文化積分新舊制規則。")

/-- `evaluate_points(record)`: the full evaluator, with the rule
configuration passed explicitly in place of the global `RULES`.
Configuration keys are read in source order; a missing key is an escaping
`KeyError` (`.error`), never a silent default. -/
def evaluate_points (rules : Rules) (record : PointRecord) :
    Except String EvalResult :=
  match rules.totals with
  | none => .error "KeyError"
  | some totals =>
  match rules.mandatory_categories with
  | none => .error "KeyError"
  | some mandatory_rules =>
  match rules.indigenous_and_multicultural with
  | none => .error "KeyError"
  | some im_rules =>
  match im_rules.rule_change_date_minguo with
  | none => .error "KeyError"
  | some rcd_str =>
  let rule_change_date := minguo_to_gregorian rcd_str
  let prof := record.professional_course.getD 0
  let qer_raw := record.quality_ethics_regulation.getD 0
  match totals.max_quality_ethics_regulation_counted with
  | none => .error "KeyError"
  | some maxq =>
  let qer_counted := min qer_raw maxq
  match totals.min_quality_ethics_regulation with
  | none => .error "KeyError"
  | some minq =>
  let pass_qer_min := decide (qer_counted ≥ minq)
  let pass_qer_each_non_zero :=
    decide (record.quality_points_raw.getD 0 > 0) &&
    decide (record.ethics_points_raw.getD 0 > 0) &&
    decide (record.regulation_points_raw.getD 0 > 0)
  match eval_mandatory mandatory_rules (record.mandatory.getD []) with
  | .error e => .error e
  | .ok (mandatory_results, pass_mandatory_each, mandatory_total_raw) =>
  let pass_mandatory_total := decide (mandatory_total_raw ≥ 10)
  let pre_change_raw := record.pre_change_cultural_points.getD 0
  let yearly := record.yearly_cultural_points.getD []
  match im_rules.before with
  | none => .error "KeyError"
  | some before =>
  match before.max_counted with
  | none => .error "KeyError"
  | some bmax =>
  let pre_change_counted := min pre_change_raw bmax
  let yearly_ind_total := (yearly.map (fun yd => yd.indigenous.getD 0)).sum
  let yearly_mul_total := (yearly.map (fun yd => yd.multicultural.getD 0)).sum
  let yearly_total_counted := yearly_ind_total + yearly_mul_total
  let total_cultural_counted := pre_change_counted + yearly_total_counted
  match cultural_verdict before im_rules.after_present rcd_str
      rule_change_date record.renewal_date pre_change_raw yearly with
  | .error e => .error e
  | .ok (pass_cultural_overall, im_notes) =>
  let online_raw := record.online_points.getD 0
  match totals.max_online_points with
  | none => .error "KeyError"
  | some maxon =>
  let online_capped := min online_raw maxon
  let pass_online_max := decide (online_raw ≤ maxon)
  let total_counted := prof + qer_counted + mandatory_total_raw + total_cultural_counted
  match totals.min_total_points with
  | none => .error "KeyError"
  | some mintot =>
  let pass_total_min := decide (total_counted ≥ mintot)
  let physical_points := total_counted - online_raw
  let pass_physical_min := decide (physical_points ≥ mintot - maxon)
  match totals.min_professional_course with
  | none => .error "KeyError"
  | some minprof =>
  match List.lookup "fire_safety" mandatory_results with
  | none => .error "KeyError"
  | some fire =>
  match List.lookup "emergency_response" mandatory_results with
  | none => .error "KeyError"
  | some er =>
  match List.lookup "infection_control" mandatory_results with
  | none => .error "KeyError"
  | some infc =>
  match List.lookup "gender_sensitivity" mandatory_results with
  | none => .error "KeyError"
  | some gen =>
  .ok {
    breakdown := {
      professional_course_raw := prof
      qer_raw := qer_raw
      qer_counted := qer_counted
      quality_raw := record.quality_points_raw.getD 0
      ethics_raw := record.ethics_points_raw.getD 0
      regulation_raw := record.regulation_points_raw.getD 0
      mandatory := mandatory_results
      mandatory_total_raw := mandatory_total_raw
      indigenous_multicultural := {
        pre_change_raw := pre_change_raw
        pre_change_counted := pre_change_counted
        yearly_total_raw := yearly_total_counted
        counted := total_cultural_counted }
      online_points_raw := online_raw
      online_points_capped := online_capped
      physical_points_derived := physical_points }
    total_counted := total_counted
    passes := {
      total := pass_total_min
      professional_min := decide (prof ≥ minprof)
      qer_min := pass_qer_min
      qer_each_non_zero := pass_qer_each_non_zero
      mandatory_fire := fire.passes
      mandatory_er := er.passes
      mandatory_inf := infc.passes
      mandatory_gen := gen.passes
      mandatory_total := pass_mandatory_total
      mandatory_each_min := pass_mandatory_each
      indigenous_multicultural := pass_cultural_overall
      online_max := pass_online_max
      physical_min := pass_physical_min }
    notes := im_notes }

/-! ## Well-formed rule configurations

`scoring_rules.json` itself is not part of the sources; its shape is fixed
by how `scoring.py` reads it (see §3 of the spec). `RuleParams` carries the
numeric values of a fully-populated configuration with the four documented
mandatory categories, and `mkRules` builds the corresponding `Rules`. -/

/-- Numeric parameters of a fully-populated rule configuration. -/
structure RuleParams where
  validity_years : Int
  renewal_notice_months : Int
  min_professional_course : Int
  max_qer_counted : Int
  min_qer : Int
  min_total_points : Int
  max_online_points : Int
  fire_min : Int
  er_min : Int
  inf_min : Int
  gen_min : Int
  rule_change_date_minguo : String
  before_max_counted : Int
  before_min_required : Int
deriving DecidableEq

/-- The rule configuration with every documented key present. -/
def mkRules (p : RuleParams) : Rules where
  validity_years := some p.validity_years
  renewal_notice_months := some p.renewal_notice_months
  totals := some {
    min_professional_course := some p.min_professional_course
    max_quality_ethics_regulation_counted := some p.max_qer_counted
    min_quality_ethics_regulation := some p.min_qer
    min_total_points := some p.min_total_points
    max_online_points := some p.max_online_points }
  mandatory_categories := some [
    ("fire_safety", some p.fire_min),
    ("emergency_response", some p.er_min),
    ("infection_control", some p.inf_min),
    ("gender_sensitivity", some p.gen_min)]
  indigenous_and_multicultural := some {
    rule_change_date_minguo := some p.rule_change_date_minguo
    before := some ⟨some p.before_max_counted, some p.before_min_required⟩
    after_present := true }

/-- Modelled from the spec: the deployed `scoring_rules.json` is not under
`src/`, so the concrete values are reconstructed. Pinned by the source's
comments and the spec: cutover `"112-06-02"`, `renewal_notice_months = 6`
("Approx 6 months"), `max_online_points = 40` ("<= 40"),
`min_total_points = 120` (derived physical minimum "Should be >= 80" is
`min_total - max_online`), each mandatory minimum 1 ("Check if each >= 1").
The remaining values are representative. -/
def default_params : RuleParams where
  validity_years := 6
  renewal_notice_months := 6
  min_professional_course := 12
  max_qer_counted := 12
  min_qer := 6
  min_total_points := 120
  max_online_points := 40
  fire_min := 1
  er_min := 1
  inf_min := 1
  gen_min := 1
  rule_change_date_minguo := "112-06-02"
  before_max_counted := 10
  before_min_required := 4

/-- The cultural pass flag and note of a well-formed configuration, as a
pure function of the parsed cutover `cut` (see `eval_mk`). -/
def cultural_closed (p : RuleParams) (cut : Date) (record : PointRecord) :
    Bool × String :=
  match record.renewal_date.bind minguo_to_gregorian with
  | some renewal_dt =>
      if date_le renewal_dt cut then
        (decide (record.pre_change_cultural_points.getD 0 ≥ p.before_min_required),
          "認證更新日 " ++ record.renewal_date.getD "" ++ ": 適用舊制 (<= " ++
            p.rule_change_date_minguo ++ ")。")
      else
        ((record.yearly_cultural_points.getD []).all (fun yd =>
            !(decide (yd.indigenous.getD 0 < 1) ||
              decide (yd.multicultural.getD 0 < 1))),
          "認證更新日 " ++ record.renewal_date.getD "" ++ ": 適用新制 (> " ++
            p.rule_change_date_minguo ++ ")。需每年各 1 分。")
  | none =>
      (false, "未提供有效認證更新日，無法判斷文化積分新舊制規則。")

/-- The result `evaluate_points` produces on a well-formed configuration
`mkRules p` whose cutover string parses to `cut`: a pure closed form used
to drive the proofs (see `eval_mk`). -/
def eval_closed (p : RuleParams) (cut : Date) (record : PointRecord) : EvalResult :=
  let prof := record.professional_course.getD 0
  let qer_raw := record.quality_ethics_regulation.getD 0
  let qer_counted := min qer_raw p.max_qer_counted
  let minputs := record.mandatory.getD []
  let f_raw := (List.lookup "fire_safety" minputs).getD 0
  let e_raw := (List.lookup "emergency_response" minputs).getD 0
  let i_raw := (List.lookup "infection_control" minputs).getD 0
  let g_raw := (List.lookup "gender_sensitivity" minputs).getD 0
  let f_pass := decide (f_raw ≥ p.fire_min)
  let e_pass := decide (e_raw ≥ p.er_min)
  let i_pass := decide (i_raw ≥ p.inf_min)
  let g_pass := decide (g_raw ≥ p.gen_min)
  let mandatory_results : List (String × MandResult) := [
    ("fire_safety", ⟨f_raw, f_pass, p.fire_min⟩),
    ("emergency_response", ⟨e_raw, e_pass, p.er_min⟩),
    ("infection_control", ⟨i_raw, i_pass, p.inf_min⟩),
    ("gender_sensitivity", ⟨g_raw, g_pass, p.gen_min⟩)]
  let mandatory_total_raw := f_raw + (e_raw + (i_raw + (g_raw + 0)))
  let pre_change_raw := record.pre_change_cultural_points.getD 0
  let yearly := record.yearly_cultural_points.getD []
  let pre_change_counted := min pre_change_raw p.before_max_counted
  let yearly_total_counted := (yearly.map (fun yd => yd.indigenous.getD 0)).sum +
    (yearly.map (fun yd => yd.multicultural.getD 0)).sum
  let total_cultural_counted := pre_change_counted + yearly_total_counted
  let cv := cultural_closed p cut record
  let online_raw := record.online_points.getD 0
  let total_counted := prof + qer_counted + mandatory_total_raw + total_cultural_counted
  { breakdown := {
      professional_course_raw := prof
      qer_raw := qer_raw
      qer_counted := qer_counted
      quality_raw := record.quality_points_raw.getD 0
      ethics_raw := record.ethics_points_raw.getD 0
      regulation_raw := record.regulation_points_raw.getD 0
      mandatory := mandatory_results
      mandatory_total_raw := mandatory_total_raw
      indigenous_multicultural := {
        pre_change_raw := pre_change_raw
        pre_change_counted := pre_change_counted
        yearly_total_raw := yearly_total_counted
        counted := total_cultural_counted }
      online_points_raw := online_raw
      online_points_capped := min online_raw p.max_online_points
      physical_points_derived := total_counted - online_raw }
    total_counted := total_counted
    passes := {
      total := decide (total_counted ≥ p.min_total_points)
      professional_min := decide (prof ≥ p.min_professional_course)
      qer_min := decide (qer_counted ≥ p.min_qer)
      qer_each_non_zero := decide (record.quality_points_raw.getD 0 > 0) &&
        decide (record.ethics_points_raw.getD 0 > 0) &&
        decide (record.regulation_points_raw.getD 0 > 0)
      mandatory_fire := f_pass
      mandatory_er := e_pass
      mandatory_inf := i_pass
      mandatory_gen := g_pass
      mandatory_total := decide (mandatory_total_raw ≥ 10)
      mandatory_each_min := f_pass && (e_pass && (i_pass && (g_pass && true)))
      indigenous_multicultural := cv.1
      online_max := decide (online_raw ≤ p.max_online_points)
      physical_min := decide (total_counted - online_raw ≥
        p.min_total_points - p.max_online_points) }
    notes := cv.2 }

/-- On a well-formed configuration whose cutover string parses,
`evaluate_points` always succeeds and returns the closed form. -/
theorem eval_mk (p : RuleParams) (cut : Date) (record : PointRecord)
    (hcut : minguo_to_gregorian p.rule_change_date_minguo = some cut) :
    evaluate_points (mkRules p) record = .ok (eval_closed p cut record) := by
  unfold evaluate_points mkRules eval_closed cultural_verdict cultural_closed
  simp only [hcut]
  cases hrd : record.renewal_date.bind minguo_to_gregorian with
  | none => rfl
  | some rdt =>
      cases hle : date_le rdt cut with
      | false => simp only [hle]; rfl
      | true => simp only [hle]; rfl

/-! ## Sample inputs used by the witnesses -/

/-- A populated sample record. -/
def sample_record : PointRecord where
  professional_course := some 60
  quality_ethics_regulation := some 20
  quality_points_raw := some 8
  ethics_points_raw := some 6
  regulation_points_raw := some 6
  mandatory := some [("fire_safety", 3), ("emergency_response", 4),
    ("infection_control", 3), ("gender_sensitivity", 3)]
  pre_change_cultural_points := some 5
  yearly_cultural_points := some [⟨some 1, some 1⟩, ⟨some 2, some 1⟩]
  renewal_date := some "113-06-15"
  online_points := some 30

/-- The parsed cutover date of `default_params` (`"112-06-02"` = 2023-06-02). -/
def default_cutover : Date := ⟨2023, 6, 2⟩

/-- A rule configuration with every key absent. -/
def all_absent_rules : Rules := ⟨none, none, none, none, none⟩

/-! ## Claims -/

/-- C1: for every rule set and record on which evaluation succeeds,
`total_counted` equals the sum of the four components recorded in the
breakdown (professional raw, QER counted, mandatory raw total, cultural
counted), and `physical_points_derived` equals `total_counted` minus the
uncapped online raw value. -/
theorem C1_total_and_physical_reconciliation (rules : Rules)
    (record : PointRecord) (res : EvalResult)
    (h : evaluate_points rules record = .ok res) :
    res.total_counted = res.breakdown.professional_course_raw +
      res.breakdown.qer_counted + res.breakdown.mandatory_total_raw +
      res.breakdown.indigenous_multicultural.counted ∧
    res.breakdown.physical_points_derived =
      res.total_counted - res.breakdown.online_points_raw := by
  unfold evaluate_points at h
  repeat' (first | (split at h) | (simp only [] at h))
  all_goals first
    | exact (Except.noConfusion h)
    | (injection h with h; subst h; exact ⟨rfl, rfl⟩)

/-- C1 witness: the reconciliation instantiated on `sample_record` under
the default rule configuration. -/
theorem C1_reconciliation_witness :
    (eval_closed default_params default_cutover sample_record).total_counted =
      (eval_closed default_params default_cutover sample_record).breakdown.professional_course_raw +
      (eval_closed default_params default_cutover sample_record).breakdown.qer_counted +
      (eval_closed default_params default_cutover sample_record).breakdown.mandatory_total_raw +
      (eval_closed default_params default_cutover sample_record).breakdown.indigenous_multicultural.counted ∧
    (eval_closed default_params default_cutover sample_record).breakdown.physical_points_derived =
      (eval_closed default_params default_cutover sample_record).total_counted -
      (eval_closed default_params default_cutover sample_record).breakdown.online_points_raw :=
  C1_total_and_physical_reconciliation (mkRules default_params) sample_record
    (eval_closed default_params default_cutover sample_record) (by decide)

/-- `date_le` is reflexive: a date compares `<=` against itself. -/
theorem date_le_refl (d : Date) : date_le d d = true := by
  simp [date_le]

/-- Pointwise form of the new rule's per-entry test. -/
theorem not_decide_lt_one (x : Int) : (!decide (x < 1)) = decide (x ≥ 1) := by
  rcases lt_or_le x 1 with h | h
  · simp [ge_iff_le, h, not_le.mpr h]
  · simp [ge_iff_le, h, not_lt.mpr h]

/-- C2: the cutover comparison is inclusive on the old side. Whenever the
renewal date parses, a renewal `<=` cutover gets the old rule (pass iff the
pre-cutover raw meets the old minimum, with the old-rule note), a renewal
`>` cutover gets the new rule, and in particular a renewal exactly equal to
the cutover gets the old rule. -/
theorem C2_cutover_inclusive (p : RuleParams) (cut rdt : Date)
    (record : PointRecord) (s : String)
    (hcut : minguo_to_gregorian p.rule_change_date_minguo = some cut)
    (hs : record.renewal_date = some s)
    (hrdt : minguo_to_gregorian s = some rdt) :
    ∃ res, evaluate_points (mkRules p) record = .ok res ∧
      (date_le rdt cut = true →
        res.passes.indigenous_multicultural =
          decide (record.pre_change_cultural_points.getD 0 ≥ p.before_min_required) ∧
        res.notes = "認證更新日 " ++ s ++ ": 適用舊制 (<= " ++
          p.rule_change_date_minguo ++ ")。") ∧
      (date_le rdt cut = false →
        res.passes.indigenous_multicultural =
          (record.yearly_cultural_points.getD []).all (fun yd =>
            !(decide (yd.indigenous.getD 0 < 1) ||
              decide (yd.multicultural.getD 0 < 1))) ∧
        res.notes = "認證更新日 " ++ s ++ ": 適用新制 (> " ++
          p.rule_change_date_minguo ++ ")。需每年各 1 分。") ∧
      (rdt = cut →
        res.passes.indigenous_multicultural =
          decide (record.pre_change_cultural_points.getD 0 ≥ p.before_min_required)) := by
  refine ⟨eval_closed p cut record, eval_mk p cut record hcut, ?_, ?_, ?_⟩
  · intro hle
    constructor
    · simp [eval_closed, cultural_closed, hs, hrdt, hle]
    · simp [eval_closed, cultural_closed, hs, hrdt, hle]
  · intro hgt
    constructor
    · simp [eval_closed, cultural_closed, hs, hrdt, hgt]
    · simp [eval_closed, cultural_closed, hs, hrdt, hgt]
  · intro heq
    subst heq
    simp [eval_closed, cultural_closed, hs, hrdt, date_le_refl]

/-- A record whose renewal date is exactly the cutover date. -/
def boundary_record : PointRecord :=
  { empty_record with
    renewal_date := some "112-06-02"
    pre_change_cultural_points := some 5 }

/-- C2 witness: a renewal date equal to the `112-06-02` cutover. -/
theorem C2_cutover_inclusive_witness :
    ∃ res, evaluate_points (mkRules default_params) boundary_record = .ok res ∧
      (date_le default_cutover default_cutover = true →
        res.passes.indigenous_multicultural =
          decide (boundary_record.pre_change_cultural_points.getD 0 ≥
            default_params.before_min_required) ∧
        res.notes = "認證更新日 " ++ "112-06-02" ++ ": 適用舊制 (<= " ++
          default_params.rule_change_date_minguo ++ ")。") ∧
      (date_le default_cutover default_cutover = false →
        res.passes.indigenous_multicultural =
          (boundary_record.yearly_cultural_points.getD []).all (fun yd =>
            !(decide (yd.indigenous.getD 0 < 1) ||
              decide (yd.multicultural.getD 0 < 1))) ∧
        res.notes = "認證更新日 " ++ "112-06-02" ++ ": 適用新制 (> " ++
          default_params.rule_change_date_minguo ++ ")。需每年各 1 分。") ∧
      (default_cutover = default_cutover →
        res.passes.indigenous_multicultural =
          decide (boundary_record.pre_change_cultural_points.getD 0 ≥
            default_params.before_min_required)) :=
  C2_cutover_inclusive default_params default_cutover default_cutover
    boundary_record "112-06-02" (by decide) rfl (by decide)

/-- C3: under the new rule (renewal strictly after the cutover) the
cultural pass flag is the conjunction, over every yearly entry, of
"indigenous ≥ 1 and multicultural ≥ 1"; any single entry failing either
sub-minimum forces the flag to false. -/
theorem C3_new_rule_every_entry (p : RuleParams) (cut rdt : Date)
    (record : PointRecord) (s : String)
    (hcut : minguo_to_gregorian p.rule_change_date_minguo = some cut)
    (hs : record.renewal_date = some s)
    (hrdt : minguo_to_gregorian s = some rdt)
    (hgt : date_le rdt cut = false) :
    ∃ res, evaluate_points (mkRules p) record = .ok res ∧
      res.passes.indigenous_multicultural =
        (record.yearly_cultural_points.getD []).all (fun yd =>
          decide (yd.indigenous.getD 0 ≥ 1) && decide (yd.multicultural.getD 0 ≥ 1)) ∧
      (∀ yd ∈ record.yearly_cultural_points.getD [],
        (yd.indigenous.getD 0 < 1 ∨ yd.multicultural.getD 0 < 1) →
        res.passes.indigenous_multicultural = false) := by
  have hflag : (eval_closed p cut record).passes.indigenous_multicultural =
      (record.yearly_cultural_points.getD []).all (fun yd =>
        !(decide (yd.indigenous.getD 0 < 1) || decide (yd.multicultural.getD 0 < 1))) := by
    simp [eval_closed, cultural_closed, hs, hrdt, hgt]
  have hfun : (fun yd : YearData =>
      !(decide (yd.indigenous.getD 0 < 1) || decide (yd.multicultural.getD 0 < 1))) =
      (fun yd : YearData =>
        decide (yd.indigenous.getD 0 ≥ 1) && decide (yd.multicultural.getD 0 ≥ 1)) := by
    funext yd
    rw [Bool.not_or, not_decide_lt_one, not_decide_lt_one]
  refine ⟨eval_closed p cut record, eval_mk p cut record hcut, ?_, ?_⟩
  · rw [hflag, hfun]
  · intro yd hmem hbad
    rw [hflag]
    refine List.all_eq_false.mpr ⟨yd, hmem, ?_⟩
    cases hbad with
    | inl h => simp [h]
    | inr h => simp [h]

/-- The spec's §8 new-rule example: one entry passes both sub-minimums,
the next has zero multicultural points. -/
def two_entry_record : PointRecord :=
  { empty_record with
    renewal_date := some "112-06-03"
    yearly_cultural_points := some [⟨some 1, some 1⟩, ⟨some 1, some 0⟩] }

/-- C3 witness: renewal one day after the cutover with entries
`[{ind 1, mul 1}, {ind 1, mul 0}]`. -/
theorem C3_new_rule_every_entry_witness :
    ∃ res, evaluate_points (mkRules default_params) two_entry_record = .ok res ∧
      res.passes.indigenous_multicultural =
        (two_entry_record.yearly_cultural_points.getD []).all (fun yd =>
          decide (yd.indigenous.getD 0 ≥ 1) && decide (yd.multicultural.getD 0 ≥ 1)) ∧
      (∀ yd ∈ two_entry_record.yearly_cultural_points.getD [],
        (yd.indigenous.getD 0 < 1 ∨ yd.multicultural.getD 0 < 1) →
        res.passes.indigenous_multicultural = false) :=
  C3_new_rule_every_entry default_params default_cutover ⟨2023, 6, 3⟩
    two_entry_record "112-06-03" (by decide) rfl (by decide) (by decide)

/-- C4: the cultural counted contribution is always the pre-cutover raw
capped at the old rule's ceiling plus the uncapped sum of all yearly
indigenous and multicultural points — for every record, whichever rule
version its renewal date selects and whatever the pass flag is. -/
theorem C4_cultural_counted_additive (p : RuleParams) (cut : Date)
    (record : PointRecord)
    (hcut : minguo_to_gregorian p.rule_change_date_minguo = some cut) :
    ∃ res, evaluate_points (mkRules p) record = .ok res ∧
      res.breakdown.indigenous_multicultural.counted =
        min (record.pre_change_cultural_points.getD 0) p.before_max_counted +
        (((record.yearly_cultural_points.getD []).map (fun yd => yd.indigenous.getD 0)).sum +
         ((record.yearly_cultural_points.getD []).map (fun yd => yd.multicultural.getD 0)).sum) :=
  ⟨eval_closed p cut record, eval_mk p cut record hcut, rfl⟩

/-- C4 witness: the cultural counted value of `sample_record`. -/
theorem C4_cultural_counted_additive_witness :
    ∃ res, evaluate_points (mkRules default_params) sample_record = .ok res ∧
      res.breakdown.indigenous_multicultural.counted =
        min (sample_record.pre_change_cultural_points.getD 0)
          default_params.before_max_counted +
        (((sample_record.yearly_cultural_points.getD []).map (fun yd => yd.indigenous.getD 0)).sum +
         ((sample_record.yearly_cultural_points.getD []).map (fun yd => yd.multicultural.getD 0)).sum) :=
  C4_cultural_counted_additive default_params default_cutover sample_record (by decide)

/-- C5: mandatory-category checks are independent. Each per-category pass
flag is exactly "raw ≥ that category's configured minimum", the separate
`mandatory_total` flag is exactly "sum of the four raw values ≥ 10", and
the uncapped raw sum is the mandatory component of `total_counted`. -/
theorem C5_mandatory_independent (p : RuleParams) (cut : Date)
    (record : PointRecord)
    (hcut : minguo_to_gregorian p.rule_change_date_minguo = some cut) :
    ∃ res, evaluate_points (mkRules p) record = .ok res ∧
      res.passes.mandatory_fire =
        decide ((List.lookup "fire_safety" (record.mandatory.getD [])).getD 0 ≥ p.fire_min) ∧
      res.passes.mandatory_er =
        decide ((List.lookup "emergency_response" (record.mandatory.getD [])).getD 0 ≥ p.er_min) ∧
      res.passes.mandatory_inf =
        decide ((List.lookup "infection_control" (record.mandatory.getD [])).getD 0 ≥ p.inf_min) ∧
      res.passes.mandatory_gen =
        decide ((List.lookup "gender_sensitivity" (record.mandatory.getD [])).getD 0 ≥ p.gen_min) ∧
      res.breakdown.mandatory_total_raw =
        (List.lookup "fire_safety" (record.mandatory.getD [])).getD 0 +
        (List.lookup "emergency_response" (record.mandatory.getD [])).getD 0 +
        (List.lookup "infection_control" (record.mandatory.getD [])).getD 0 +
        (List.lookup "gender_sensitivity" (record.mandatory.getD [])).getD 0 ∧
      res.passes.mandatory_total = decide (res.breakdown.mandatory_total_raw ≥ 10) ∧
      res.total_counted = res.breakdown.professional_course_raw +
        res.breakdown.qer_counted + res.breakdown.mandatory_total_raw +
        res.breakdown.indigenous_multicultural.counted := by
  refine ⟨eval_closed p cut record, eval_mk p cut record hcut, rfl, rfl, rfl, rfl, ?_, rfl, rfl⟩
  show (List.lookup "fire_safety" (record.mandatory.getD [])).getD 0 +
    ((List.lookup "emergency_response" (record.mandatory.getD [])).getD 0 +
      ((List.lookup "infection_control" (record.mandatory.getD [])).getD 0 +
        ((List.lookup "gender_sensitivity" (record.mandatory.getD [])).getD 0 + 0))) = _
  ring

/-- The spec's §8 mandatory example: `{fire 0, er 4, inf 3, gen 3}`. -/
def mand_example_record : PointRecord :=
  { empty_record with
    renewal_date := some "113-06-15"
    mandatory := some [("fire_safety", 0), ("emergency_response", 4),
      ("infection_control", 3), ("gender_sensitivity", 3)] }

/-- C5 witness: raw values `{fire 0, er 4, inf 3, gen 3}` under the default
minimums — the sum reaches 10 while the fire-safety flag is false. -/
theorem C5_mandatory_independent_witness :
    (∃ res, evaluate_points (mkRules default_params) mand_example_record = .ok res ∧
      res.passes.mandatory_fire =
        decide ((List.lookup "fire_safety" (mand_example_record.mandatory.getD [])).getD 0 ≥
          default_params.fire_min) ∧
      res.passes.mandatory_er =
        decide ((List.lookup "emergency_response" (mand_example_record.mandatory.getD [])).getD 0 ≥
          default_params.er_min) ∧
      res.passes.mandatory_inf =
        decide ((List.lookup "infection_control" (mand_example_record.mandatory.getD [])).getD 0 ≥
          default_params.inf_min) ∧
      res.passes.mandatory_gen =
        decide ((List.lookup "gender_sensitivity" (mand_example_record.mandatory.getD [])).getD 0 ≥
          default_params.gen_min) ∧
      res.breakdown.mandatory_total_raw =
        (List.lookup "fire_safety" (mand_example_record.mandatory.getD [])).getD 0 +
        (List.lookup "emergency_response" (mand_example_record.mandatory.getD [])).getD 0 +
        (List.lookup "infection_control" (mand_example_record.mandatory.getD [])).getD 0 +
        (List.lookup "gender_sensitivity" (mand_example_record.mandatory.getD [])).getD 0 ∧
      res.passes.mandatory_total = decide (res.breakdown.mandatory_total_raw ≥ 10) ∧
      res.total_counted = res.breakdown.professional_course_raw +
        res.breakdown.qer_counted + res.breakdown.mandatory_total_raw +
        res.breakdown.indigenous_multicultural.counted) ∧
    (eval_closed default_params default_cutover mand_example_record).passes.mandatory_total = true ∧
    (eval_closed default_params default_cutover mand_example_record).passes.mandatory_fire = false :=
  ⟨C5_mandatory_independent default_params default_cutover mand_example_record (by decide),
    by decide, by decide⟩

/-- C6: on a well-formed configuration, evaluation succeeds for every
record — absent record fields default to zero or the empty list inside the
embedding — and when the renewal date is missing or unparseable only the
cultural category degrades: its flag is false and the note says the rule
could not be determined, while the professional, online and mandatory
flags, the breakdown and `total_counted` are still produced. -/
theorem C6_never_raises_local_degradation (p : RuleParams) (cut : Date)
    (record : PointRecord)
    (hcut : minguo_to_gregorian p.rule_change_date_minguo = some cut) :
    ∃ res, evaluate_points (mkRules p) record = .ok res ∧
      (record.renewal_date.bind minguo_to_gregorian = none →
        res.passes.indigenous_multicultural = false ∧
        res.notes = "未提供有效認證更新日，無法判斷文化積分新舊制規則。" ∧
        res.passes.professional_min =
          decide (record.professional_course.getD 0 ≥ p.min_professional_course) ∧
        res.passes.online_max =
          decide (record.online_points.getD 0 ≤ p.max_online_points) ∧
        res.passes.mandatory_total = decide (res.breakdown.mandatory_total_raw ≥ 10) ∧
        res.total_counted = res.breakdown.professional_course_raw +
          res.breakdown.qer_counted + res.breakdown.mandatory_total_raw +
          res.breakdown.indigenous_multicultural.counted) := by
  refine ⟨eval_closed p cut record, eval_mk p cut record hcut, ?_⟩
  intro hnone
  refine ⟨?_, ?_, rfl, rfl, rfl, rfl⟩
  · simp [eval_closed, cultural_closed, hnone]
  · simp [eval_closed, cultural_closed, hnone]

/-- C6 witness: the record with no fields at all evaluates without error
and degrades only the cultural verdict. -/
theorem C6_never_raises_witness :
    ∃ res, evaluate_points (mkRules default_params) empty_record = .ok res ∧
      (empty_record.renewal_date.bind minguo_to_gregorian = none →
        res.passes.indigenous_multicultural = false ∧
        res.notes = "未提供有效認證更新日，無法判斷文化積分新舊制規則。" ∧
        res.passes.professional_min =
          decide (empty_record.professional_course.getD 0 ≥
            default_params.min_professional_course) ∧
        res.passes.online_max =
          decide (empty_record.online_points.getD 0 ≤ default_params.max_online_points) ∧
        res.passes.mandatory_total = decide (res.breakdown.mandatory_total_raw ≥ 10) ∧
        res.total_counted = res.breakdown.professional_course_raw +
          res.breakdown.qer_counted + res.breakdown.mandatory_total_raw +
          res.breakdown.indigenous_multicultural.counted) :=
  C6_never_raises_local_degradation default_params default_cutover empty_record (by decide)

/-- C10: with a renewal date strictly after the cutover and an empty yearly
cultural sequence, the new rule's every-entry requirement holds vacuously
and the cultural pass flag is true. -/
theorem C10_empty_yearly_vacuous (p : RuleParams) (cut rdt : Date)
    (record : PointRecord) (s : String)
    (hcut : minguo_to_gregorian p.rule_change_date_minguo = some cut)
    (hs : record.renewal_date = some s)
    (hrdt : minguo_to_gregorian s = some rdt)
    (hgt : date_le rdt cut = false)
    (hempty : record.yearly_cultural_points.getD [] = []) :
    ∃ res, evaluate_points (mkRules p) record = .ok res ∧
      res.passes.indigenous_multicultural = true := by
  refine ⟨eval_closed p cut record, eval_mk p cut record hcut, ?_⟩
  simp [eval_closed, cultural_closed, hs, hrdt, hgt, hempty]

/-- An otherwise-empty record renewed after the cutover. -/
def post_cutover_empty_record : PointRecord :=
  { empty_record with renewal_date := some "113-01-01" }

/-- C10 witness: renewal `113-01-01` (2024-01-01, after the cutover), no
yearly entries and all cultural inputs zero, yet the flag is true. -/
theorem C10_empty_yearly_vacuous_witness :
    ∃ res, evaluate_points (mkRules default_params) post_cutover_empty_record = .ok res ∧
      res.passes.indigenous_multicultural = true :=
  C10_empty_yearly_vacuous default_params default_cutover ⟨2024, 1, 1⟩
    post_cutover_empty_record "113-01-01" (by decide) rfl (by decide)
    (by decide) rfl

/-- C7 counterexample: with the `totals` (resp. `validity_years`) key
absent from the configuration, the evaluator and the date calculator do
not return "no result" or a failing category — the `KeyError` escapes
their boundary (`.error` models the uncaught Python exception). -/
theorem C7_fail_closed_counterexample :
    evaluate_points all_absent_rules empty_record = .error "KeyError" ∧
    compute_expiry_and_notice all_absent_rules "113-06-15" = .error "KeyError" := by
  constructor <;> decide

/-- C7 as amended: when a referenced configuration field is absent the
functions raise (`KeyError` escapes) rather than failing closed; the
fail-closed behaviour holds only for an unparseable date string, where the
date calculator returns no result (`.ok none`). -/
theorem C7_missing_config_raises (rules : Rules) (record : PointRecord)
    (s t : String) (d : Date) :
    (rules.totals = none → evaluate_points rules record = .error "KeyError") ∧
    (rules.validity_years = none → minguo_to_gregorian s = some d →
      compute_expiry_and_notice rules s = .error "KeyError") ∧
    (minguo_to_gregorian t = none → compute_expiry_and_notice rules t = .ok none) := by
  refine ⟨?_, ?_, ?_⟩
  · intro h; simp [evaluate_points, h]
  · intro h1 h2; simp [compute_expiry_and_notice, h1, h2]
  · intro h; simp [compute_expiry_and_notice, h]

/-- C7 witness: the all-absent configuration raises on both entry points,
while a malformed date string still fails closed. -/
theorem C7_missing_config_raises_witness :
    evaluate_points all_absent_rules empty_record = .error "KeyError" ∧
    compute_expiry_and_notice all_absent_rules "113-06-15" = .error "KeyError" ∧
    compute_expiry_and_notice all_absent_rules "bad-date" = .ok none :=
  ⟨(C7_missing_config_raises all_absent_rules empty_record "113-06-15"
      "bad-date" ⟨2024, 6, 15⟩).1 rfl,
   (C7_missing_config_raises all_absent_rules empty_record "113-06-15"
      "bad-date" ⟨2024, 6, 15⟩).2.1 rfl (by decide),
   (C7_missing_config_raises all_absent_rules empty_record "113-06-15"
      "bad-date" ⟨2024, 6, 15⟩).2.2 (by decide)⟩

/-- If adding `n` years to a valid date gives an invalid date (with the
target year still in `datetime` range), the date was February 29, the
target year is non-leap, and the day-minus-one fallback is valid. -/
theorem add_years_invalid_case (y m d n : Int)
    (hv : is_valid_datetime y m d = true)
    (h1 : 1 ≤ y + n) (h2 : y + n ≤ 9999)
    (hinv : is_valid_datetime (y + n) m d = false) :
    m = 2 ∧ d = 29 ∧ is_valid_datetime (y + n) m (d - 1) = true := by
  have hinv' : ¬ (is_valid_datetime (y + n) m d = true) := by simp [hinv]
  simp only [is_valid_datetime, days_in_month, Bool.and_eq_true,
    decide_eq_true_eq] at hv hinv' ⊢
  split_ifs at hv hinv' ⊢ <;> omega

/-- C8: `add_years` adds `n` calendar years when the result is a valid
date, and when the result is invalid (necessarily February 29 mapped into
a non-leap year) it returns the same month with day − 1 instead of
failing; in particular 2024-02-29 plus one year is 2025-02-28. -/
theorem C8_add_years_leap_fallback (y m d n : Int)
    (hv : is_valid_datetime y m d = true) (h1 : 1 ≤ y + n) (h2 : y + n ≤ 9999) :
    (is_valid_datetime (y + n) m d = true →
      add_years ⟨y, m, d⟩ n = .ok ⟨y + n, m, d⟩) ∧
    (is_valid_datetime (y + n) m d = false →
      m = 2 ∧ d = 29 ∧ add_years ⟨y, m, d⟩ n = .ok ⟨y + n, 2, 28⟩) ∧
    add_years ⟨2024, 2, 29⟩ 1 = .ok ⟨2025, 2, 28⟩ := by
  refine ⟨?_, ?_, by decide⟩
  · intro h; simp [add_years, h]
  · intro hinv
    obtain ⟨hm, hd, hval⟩ := add_years_invalid_case y m d n hv h1 h2 hinv
    subst hm; subst hd
    refine ⟨rfl, rfl, ?_⟩
    simp only [add_years, hinv, Bool.false_eq_true, if_false]
    norm_num at hval ⊢
    simp [hval]

/-- C8 witness: the leap-day instance 2024-02-29 plus one year. -/
theorem C8_add_years_leap_fallback_witness :
    (is_valid_datetime (2024 + 1) 2 29 = true →
      add_years ⟨2024, 2, 29⟩ 1 = .ok ⟨2024 + 1, 2, 29⟩) ∧
    (is_valid_datetime (2024 + 1) 2 29 = false →
      (2 : Int) = 2 ∧ (29 : Int) = 29 ∧
      add_years ⟨2024, 2, 29⟩ 1 = .ok ⟨2024 + 1, 2, 28⟩) ∧
    add_years ⟨2024, 2, 29⟩ 1 = .ok ⟨2025, 2, 28⟩ :=
  C8_add_years_leap_fallback 2024 2 29 1 (by decide) (by decide) (by decide)

/-- Every successful Minguo parse comes from exactly three dash-separated
fields whose `int()` values give the date as (offset + 1911, month, day). -/
theorem minguo_parse_shape (u : String) (dt : Date)
    (h : minguo_to_gregorian u = some dt) :
    ∃ p0 p1 p2 y0 mm dd, split_dash u.data = [p0, p1, p2] ∧
      py_int_chars p0 = some y0 ∧ py_int_chars p1 = some mm ∧
      py_int_chars p2 = some dd ∧ dt = ⟨y0 + 1911, mm, dd⟩ := by
  unfold minguo_to_gregorian at h
  repeat' (first | (split at h) | (simp only [] at h))
  all_goals first
    | exact (Option.noConfusion h)
    | (injection h with h; subst h;
       exact ⟨_, _, _, _, _, _, by assumption, by assumption, by assumption,
         by assumption, rfl⟩)

/-- C9: for a start string that parses, the calculator returns the start,
the leap-safe `start + validity_years` expiry, and the notice date obtained
by subtracting `renewal_notice_months × 30` days (the fixed 30-day
approximation), all formatted `YYYY-MM-DD`; the parsed start's year is the
Minguo offset plus 1911; and an unparseable start yields no result. -/
theorem C9_expiry_and_notice (rules : Rules) (vy nm : Int) (s t : String)
    (st expiry notice : Date)
    (hv : rules.validity_years = some vy)
    (hn : rules.renewal_notice_months = some nm)
    (hparse : minguo_to_gregorian s = some st)
    (hadd : add_years st vy = .ok expiry)
    (hsub : subtract_days expiry (nm * 30) = .ok notice)
    (hbad : minguo_to_gregorian t = none) :
    compute_expiry_and_notice rules s =
      .ok (some ⟨strftime_ymd st, strftime_ymd expiry, strftime_ymd notice⟩) ∧
    compute_expiry_and_notice rules t = .ok none ∧
    (∃ p0 p1 p2 y0 mm dd, split_dash s.data = [p0, p1, p2] ∧
      py_int_chars p0 = some y0 ∧ py_int_chars p1 = some mm ∧
      py_int_chars p2 = some dd ∧ st = ⟨y0 + 1911, mm, dd⟩) := by
  refine ⟨?_, ?_, minguo_parse_shape s st hparse⟩
  · simp [compute_expiry_and_notice, hparse, hv, hadd, hn, hsub]
  · simp [compute_expiry_and_notice, hbad]

/-- C9 witness: `"113-06-15"` starts 2024-06-15; with 6 validity years and
6 notice months the expiry is 2030-06-15 and the notice date 2029-12-17
(180 days earlier), and a malformed start yields no result. -/
theorem C9_expiry_and_notice_witness :
    (compute_expiry_and_notice (mkRules default_params) "113-06-15" =
      .ok (some ⟨strftime_ymd ⟨2024, 6, 15⟩, strftime_ymd ⟨2030, 6, 15⟩,
        strftime_ymd ⟨2029, 12, 17⟩⟩) ∧
    compute_expiry_and_notice (mkRules default_params) "not-a-minguo-date" = .ok none ∧
    (∃ p0 p1 p2 y0 mm dd, split_dash ("113-06-15" : String).data = [p0, p1, p2] ∧
      py_int_chars p0 = some y0 ∧ py_int_chars p1 = some mm ∧
      py_int_chars p2 = some dd ∧ (⟨2024, 6, 15⟩ : Date) = ⟨y0 + 1911, mm, dd⟩)) ∧
    strftime_ymd ⟨2024, 6, 15⟩ = "2024-06-15" ∧
    strftime_ymd ⟨2030, 6, 15⟩ = "2030-06-15" ∧
    strftime_ymd ⟨2029, 12, 17⟩ = "2029-12-17" :=
  ⟨C9_expiry_and_notice (mkRules default_params) 6 6 "113-06-15"
      "not-a-minguo-date" ⟨2024, 6, 15⟩ ⟨2030, 6, 15⟩ ⟨2029, 12, 17⟩ rfl rfl
      (by decide) (by decide) (by decide) (by decide),
    by decide, by decide, by decide⟩
